import Mathlib

/-!
Verification of the nsctl minimal container runtime (Go) against its
natural-language specification.  The Go sources are shallowly embedded:
pure computations become Lean functions, the mutable process-wide state
directory and the on-disk record store become explicit state passing, and
operating-system effects (mkdir, readdir, process liveness probes, process
creation, execve) are modelled by explicit environment records supplying
each syscall's outcome.
-/

namespace Nsctl

/-! ## Data model: the persisted container record (struct ContainerInfo) -/

/-- One persisted container record, mirroring `ContainerInfo` in the source:
fields `id`, `pid`, `command`, `args`, `start_time`, `status`.  Time instants
are modelled as natural numbers (Unix seconds). -/
structure ContainerInfo where
  id : String
  pid : Nat
  command : String
  args : List String
  startTime : Nat
  status : String
deriving DecidableEq

/-- Result of reading one file of the state directory: it parses to a record,
it is readable but malformed (json.Unmarshal fails), or it cannot be read at
all (ioutil.ReadFile fails).  The latter two are the two `continue` branches
of the listing loop. -/
inductive FileData where
  | valid (info : ContainerInfo)
  | malformed
  | unreadable
deriving DecidableEq

/-- Files that the listing loop skips with a warning. -/
def FileData.isCorrupt : FileData → Bool
  | FileData.valid _ => false
  | FileData.malformed => true
  | FileData.unreadable => true

/-- `strings.HasSuffix(s, suffixStr)`: the last `len(suffixStr)` characters of
`s` equal `suffixStr`. -/
def hasSuffix (s suffixStr : String) : Bool :=
  decide (suffixStr.data.length ≤ s.data.length) &&
  decide (s.data.drop (s.data.length - suffixStr.data.length) = suffixStr.data)

/-- A flat file store: association list from path (or file name) to contents. -/
def lookupFile : List (String × FileData) → String → Option FileData
  | [], _ => none
  | e :: rest, path => if e.1 = path then some e.2 else lookupFile rest path

/-- `ioutil.WriteFile`: create or overwrite the file at `path`. -/
def writeFile (fs : List (String × FileData)) (path : String) (d : FileData) :
    List (String × FileData) :=
  (path, d) :: fs

/-- `os.Remove`: drop every entry stored at `path`. -/
def eraseFile : List (String × FileData) → String → List (String × FileData)
  | [], _ => []
  | e :: rest, path =>
    if e.1 = path then eraseFile rest path else e :: eraseFile rest path

/-! ## Environment: outcomes of the operating-system calls -/

/-- Outcome of `os.MkdirAll`: success, an `os.IsPermission` error, or any
other error. -/
inductive MkdirOutcome where
  | ok
  | permDenied
  | otherError
deriving DecidableEq

/-- The operating-system facilities the registry relies on: directory
creation outcomes, the HOME environment variable, and directory listing
(`ioutil.ReadDir` combined with the per-file `ioutil.ReadFile`, whose
per-file read or parse failures are folded into `FileData`). -/
structure SysEnv where
  mkdir : String → MkdirOutcome
  home : String
  readDir : String → Except String (List (String × FileData))

/-! ## State registry (RegisterContainer / ListContainers / UnregisterContainer) -/

/-- `defaultStateDir` constant of the source. -/
def defaultStateDir : String := "/var/run/nsctl"

/-- `containerFileExt` constant of the source. -/
def containerFileExt : String := ".json"

/-- Initial value of the process-wide mutable `currentStateDir` variable. -/
def currentStateDirInit : String := defaultStateDir

/-- The user-scoped fallback directory
`filepath.Join(os.Getenv("HOME"), ".nsctl", "run")`. -/
def userStateDir (env : SysEnv) : String := env.home ++ "/.nsctl/run"

/-- `ensureStateDir`: try to create the current state directory; on an
`os.IsPermission` error, create the user fallback directory and switch the
process-wide current state directory to it; any other failure (including a
failure to create the fallback) is an error that leaves the current
directory unchanged.  Returns the new current directory and a success flag. -/
def ensureStateDir (env : SysEnv) (currentStateDir : String) : String × Bool :=
  match env.mkdir currentStateDir with
  | MkdirOutcome.ok => (currentStateDir, true)
  | MkdirOutcome.permDenied =>
    match env.mkdir (userStateDir env) with
    | MkdirOutcome.ok => (userStateDir env, true)
    | MkdirOutcome.permDenied => (currentStateDir, false)
    | MkdirOutcome.otherError => (currentStateDir, false)
  | MkdirOutcome.otherError => (currentStateDir, false)

/-- `generateContainerID`: `fmt.Sprintf("nsctl_%d_%d", time.Now().Unix(), pid)`.
The clock reading is passed explicitly as `unixNow`. -/
def generateContainerID (unixNow : Nat) (pid : Nat) : String :=
  "nsctl_" ++ Nat.repr unixNow ++ "_" ++ Nat.repr pid

/-- `getContainerFilePath`: `filepath.Join(currentStateDir, containerID + containerFileExt)`. -/
def getContainerFilePath (currentStateDir : String) (containerID : String) : String :=
  currentStateDir ++ "/" ++ containerID ++ containerFileExt

/-- Process-wide registry state: the mutable `currentStateDir` variable plus
the on-disk record store, keyed by full file path. -/
structure RegState where
  dir : String
  files : List (String × FileData)
deriving DecidableEq

/-- `RegisterContainer`: ensure the state directory, compute the id, build the
record with `status = "running"`, serialize it (JSON marshalling of this
struct cannot fail and is not modelled), and write it at the per-record
path.  The two clock readings of the source (`time.Now().Unix()` inside
`generateContainerID` and `time.Now()` for `StartTime`) are the parameters
`unixNow` and `startNow`. -/
def RegisterContainer (env : SysEnv) (unixNow startNow : Nat) (pid : Nat)
    (command : String) (args : List String) (st : RegState) :
    Except String String × RegState :=
  match ensureStateDir env st.dir with
  | (d, false) => (Except.error "failed to create state directory", { st with dir := d })
  | (d, true) =>
    let containerID := generateContainerID unixNow pid
    let containerInfo : ContainerInfo :=
      { id := containerID, pid := pid, command := command, args := args,
        startTime := startNow, status := "running" }
    let filePath := getContainerFilePath d containerID
    (Except.ok containerID,
     { dir := d, files := writeFile st.files filePath (FileData.valid containerInfo) })

/-- `UnregisterContainer`: remove the record file; `os.Remove` on a missing
file yields an `os.IsNotExist` error, which the source treats as success. -/
def UnregisterContainer (st : RegState) (containerID : String) :
    Except String Unit × RegState :=
  let filePath := getContainerFilePath st.dir containerID
  match lookupFile st.files filePath with
  | some _ => (Except.ok (), { st with files := eraseFile st.files filePath })
  | none => (Except.ok (), st)

/-- `isProcessRunning`: the `syscall.Kill(pid, 0)` liveness probe, answered by
the environment's liveness predicate. -/
def isProcessRunning (alive : Nat → Bool) (pid : Nat) : Bool := alive pid

/-- The loop body of `ListContainers` over the directory entries, in file
order.  Non-`.json` names are skipped; unreadable or malformed files are
skipped with a warning; parseable records get their status recomputed from
the liveness probe.  The second component collects the ids handed to the
asynchronous `go UnregisterContainer(id)` cleanup, which runs outside this
call and never touches the returned list. -/
def listContainersLoop (alive : Nat → Bool) :
    List (String × FileData) → List ContainerInfo × List String
  | [] => ([], [])
  | e :: rest =>
    let acc := listContainersLoop alive rest
    if hasSuffix e.1 containerFileExt then
      match e.2 with
      | FileData.valid info =>
        if isProcessRunning alive info.pid then
          ({ info with status := "running" } :: acc.1, acc.2)
        else
          ({ info with status := "exited" } :: acc.1, info.id :: acc.2)
      | FileData.malformed => acc
      | FileData.unreadable => acc
    else acc

/-- `ListContainers`: ensure the state directory, read it, and run the loop.
Returns the snapshot together with the ids scheduled for asynchronous
removal. -/
def ListContainers (env : SysEnv) (alive : Nat → Bool) (st : RegState) :
    Except String (List ContainerInfo × List String) × RegState :=
  match ensureStateDir env st.dir with
  | (d, false) => (Except.error "failed to create state directory", { st with dir := d })
  | (d, true) =>
    match env.readDir d with
    | Except.error e =>
      (Except.error ("failed to read state directory: " ++ e), { st with dir := d })
    | Except.ok files =>
      (Except.ok (listContainersLoop alive files), { st with dir := d })

/-! ## Registry call sequences (for the process-wide directory policy) -/

/-- One registry call, for reasoning about a whole process lifetime. -/
inductive RegOp where
  | registerOp (unixNow startNow pid : Nat) (command : String) (args : List String)
  | listOp (alive : Nat → Bool)
  | unregisterOp (containerID : String)

/-- State transition of one registry call. -/
def applyOp (env : SysEnv) (st : RegState) : RegOp → RegState
  | RegOp.registerOp u s p c a => (RegisterContainer env u s p c a st).2
  | RegOp.listOp alive => (ListContainers env alive st).2
  | RegOp.unregisterOp id => (UnregisterContainer st id).2

/-- State after a sequence of registry calls. -/
def applyOps (env : SysEnv) : RegState → List RegOp → RegState
  | st, [] => st
  | st, op :: ops => applyOps env (applyOp env st op) ops

/-- The directory a registry call actually operates under: register and list
re-resolve it through `ensureStateDir`, unregister uses the current value
directly. -/
def opUsedDir (env : SysEnv) (st : RegState) : RegOp → String
  | RegOp.registerOp _ _ _ _ _ => (ensureStateDir env st.dir).1
  | RegOp.listOp _ => (ensureStateDir env st.dir).1
  | RegOp.unregisterOp _ => st.dir

/-! ## Launcher (RunWithSetup) and the run command handler -/

/-- Process-control and registry actions the launch path can perform.  The
`registerCall` action stands for an invocation of `RegisterContainer`. -/
inductive LaunchAction where
  | startChild (path : String) (argv : List String)
  | waitChild
  | registerCall (pid : Nat) (command : String) (args : List String)
deriving DecidableEq

/-- Recognize a `RegisterContainer` invocation in a launch trace. -/
def LaunchAction.isRegisterCall : LaunchAction → Bool
  | LaunchAction.registerCall _ _ _ => true
  | _ => false

/-- Outcomes of the process-control calls made by the launcher. -/
structure LaunchWorld where
  startOk : Bool
  childPid : Nat
  waitOk : Bool
deriving DecidableEq

/-- `RunWithSetup`: build `wrapperArgs = [execPath, "setup-and-exec", command] ++ args`,
start the child as `exec.Command(execPath, wrapperArgs[1:]...)` with the
UTS, PID and mount namespace clone flags, and wait for it.  The result is
the trace of actions performed plus the overall success. -/
def RunWithSetup (w : LaunchWorld) (execPath : String) (command : String)
    (args : List String) : List LaunchAction × Bool :=
  let wrapperArgs := [execPath, "setup-and-exec", command] ++ args
  if w.startOk then
    ([LaunchAction.startChild execPath (wrapperArgs.drop 1), LaunchAction.waitChild], w.waitOk)
  else
    ([LaunchAction.startChild execPath (wrapperArgs.drop 1)], false)

/-- `handleRunCommand`: with fewer than three arguments print usage and exit 1,
otherwise call `RunWithSetup(os.Args[0], os.Args[2], os.Args[3:])`. -/
def handleRunCommand (w : LaunchWorld) (argv : List String) :
    List LaunchAction × Bool :=
  match argv with
  | arg0 :: _ :: targetCmd :: targetArgs => RunWithSetup w arg0 targetCmd targetArgs
  | _ => ([], false)

/-! ## Entry-point dispatch (main) -/

/-- `isNamespaceSetupCall`: `len(os.Args) >= 3 && os.Args[1] == "setup-and-exec"`. -/
def isNamespaceSetupCall (argv : List String) : Bool :=
  decide (3 ≤ argv.length) && (argv[1]? == some "setup-and-exec")

/-- Where `main` routes an invocation. -/
inductive MainRoute where
  | setupHandler (targetCmd : String) (targetArgs : List String)
  | usageExit1
  | runHandler
  | psHandler
  | unknownCommand (command : String)
deriving DecidableEq

/-- The dispatch logic of `main`: the internal re-entry check first, then the
argument-count guard, then the user-command switch. -/
def mainDispatch (argv : List String) : MainRoute :=
  if isNamespaceSetupCall argv then
    MainRoute.setupHandler (argv[2]?.getD "") (argv.drop 3)
  else if argv.length < 2 then
    MainRoute.usageExit1
  else
    match argv[1]? with
    | some "run" => MainRoute.runHandler
    | some "ps" => MainRoute.psHandler
    | some c => MainRoute.unknownCommand c
    | none => MainRoute.usageExit1

/-- Exit status `main` sets on the routes that terminate immediately. -/
def routeExitCode : MainRoute → Option Nat
  | MainRoute.usageExit1 => some 1
  | MainRoute.unknownCommand _ => some 1
  | _ => none

/-- Routes on which `main` prints the usage text. -/
def routePrintsUsage : MainRoute → Bool
  | MainRoute.usageExit1 => true
  | MainRoute.unknownCommand _ => true
  | _ => false

/-- Recognize the internal setup route. -/
def routesToSetupHandler : MainRoute → Bool
  | MainRoute.setupHandler _ _ => true
  | _ => false

/-! ## Setup handler (HandleSetupAndExec) -/

/-- The syscall steps the setup handler performs, in order. -/
inductive SetupStep where
  | sethostname (hostname : String)
  | mount (source target fstype : String)
  | execTarget (path : String) (argv : List String)
deriving DecidableEq

/-- Final outcome of the setup handler. -/
inductive SetupOutcome where
  | hostnameFailed
  | mountFailed
  | commandNotFound (command : String)
  | execTarget (path : String) (argv : List String)
deriving DecidableEq

/-- Outcomes of the syscalls the setup handler makes: `unix.Sethostname`,
`unix.Mount`, and `exec.LookPath` resolution through the search path. -/
structure SetupWorld where
  sethostnameOk : Bool
  mountOk : Bool
  lookPath : String → Option String

/-- `HandleSetupAndExec`: set the hostname to `"container"`, mount proc at
`/proc`, resolve the target through the search path, then replace the
process image via `syscall.Exec(targetPath, append([]string{targetCmd},
targetArgs...), os.Environ())`.  Each failure returns immediately; the
returned list is the trace of steps that were actually performed. -/
def HandleSetupAndExec (w : SetupWorld) (targetCmd : String)
    (targetArgs : List String) : List SetupStep × SetupOutcome :=
  if w.sethostnameOk then
    if w.mountOk then
      match w.lookPath targetCmd with
      | none =>
        ([SetupStep.sethostname "container", SetupStep.mount "proc" "/proc" "proc"],
         SetupOutcome.commandNotFound targetCmd)
      | some targetPath =>
        let execArgs := [targetCmd] ++ targetArgs
        ([SetupStep.sethostname "container", SetupStep.mount "proc" "/proc" "proc",
          SetupStep.execTarget targetPath execArgs],
         SetupOutcome.execTarget targetPath execArgs)
    else
      ([SetupStep.sethostname "container"], SetupOutcome.mountFailed)
  else
    ([], SetupOutcome.hostnameFailed)

/-! ## Concrete environments used to instantiate the theorems -/

/-- A world in which both starting the child and waiting on it succeed. -/
def launchOkWorld : LaunchWorld := { startOk := true, childPid := 4242, waitOk := true }

/-- An environment in which every directory creation succeeds. -/
def envOkEx : SysEnv :=
  { mkdir := fun _ => MkdirOutcome.ok, home := "/root", readDir := fun _ => Except.ok [] }

/-- An environment in which the system runtime directory is not writable. -/
def envPermEx : SysEnv :=
  { mkdir := fun d => if d = defaultStateDir then MkdirOutcome.permDenied else MkdirOutcome.ok,
    home := "/root", readDir := fun _ => Except.ok [] }

/-- A concrete parseable record. -/
def infoEx : ContainerInfo :=
  { id := "nsctl_100_42", pid := 42, command := "/bin/echo", args := ["hi"],
    startTime := 100, status := "running" }

/-- A state directory holding one parseable record file, one malformed file and
one unreadable file. -/
def entriesEx : List (String × FileData) :=
  [("nsctl_100_42.json", FileData.valid infoEx),
   ("bad.json", FileData.malformed),
   ("worse.json", FileData.unreadable)]

/-- An environment whose state directory lists `entriesEx`. -/
def envListEx : SysEnv :=
  { mkdir := fun _ => MkdirOutcome.ok, home := "/root",
    readDir := fun _ => Except.ok entriesEx }

/-- A setup world in which every syscall succeeds and only `"sh"` resolves. -/
def setupWorldEx : SetupWorld :=
  { sethostnameOk := true, mountOk := true,
    lookPath := fun c => if c = "sh" then some "/bin/sh" else none }

/-- Decimal digit list of `n`, little-endian, with `0` rendered as `[0]`:
the digit content of the `%d` rendering used by `generateContainerID`. -/
def decDigits (n : Nat) : List Nat :=
  if n = 0 then [0] else Nat.digits 10 n

/-! ## Shared helper lemmas -/

theorem decDigits_lt (n : Nat) : ∀ d ∈ decDigits n, d < 10 := by
  intro d hd
  unfold decDigits at hd
  by_cases h : n = 0
  · simp [h] at hd
    omega
  · rw [if_neg h] at hd
    exact Nat.digits_lt_base (by norm_num) hd

theorem ofDigits_decDigits (n : Nat) : Nat.ofDigits 10 (decDigits n) = n := by
  unfold decDigits
  by_cases h : n = 0
  · simp [h, Nat.ofDigits]
  · rw [if_neg h]
    exact Nat.ofDigits_digits 10 n

/-- With enough fuel, the core loop of `Nat.repr` produces exactly the decimal
digits of `n`, most significant first, in front of the accumulator. -/
theorem toDigitsCore_eq_digits (fuel : Nat) :
    ∀ (n : Nat) (acc : List Char), 0 < n → n < fuel →
      Nat.toDigitsCore 10 fuel n acc =
        ((Nat.digits 10 n).map Nat.digitChar).reverse ++ acc := by
  induction fuel with
  | zero => intro n acc hn hf; omega
  | succ f ih =>
    intro n acc hn hf
    by_cases hdiv : n / 10 = 0
    · have hdig : Nat.digits 10 n = [n % 10] := by
        rw [Nat.digits_def' (by norm_num : (1:ℕ) < 10) hn, hdiv]
        simp
      rw [hdig]
      simp [Nat.toDigitsCore, hdiv]
    · have hpos : 0 < n / 10 := Nat.pos_of_ne_zero hdiv
      have hlt : n / 10 < f := by
        have h1 : n / 10 < n := Nat.div_lt_self hn (by norm_num)
        omega
      have hstep : Nat.toDigitsCore 10 (f + 1) n acc =
          Nat.toDigitsCore 10 f (n / 10) (Nat.digitChar (n % 10) :: acc) := by
        simp [Nat.toDigitsCore, hdiv]
      rw [hstep, ih (n / 10) (Nat.digitChar (n % 10) :: acc) hpos hlt,
        Nat.digits_def' (by norm_num : (1:ℕ) < 10) hn]
      simp

/-- The characters of `Nat.repr n` are the decimal digit characters of `n`. -/
theorem repr_data_eq (n : Nat) :
    (Nat.repr n).data = ((decDigits n).map Nat.digitChar).reverse := by
  unfold decDigits
  by_cases h : n = 0
  · subst h; rfl
  · rw [if_neg h]
    show (List.asString (Nat.toDigits 10 n)).data = _
    have hdata : ∀ l : List Char, (List.asString l).data = l := fun l => rfl
    rw [hdata, Nat.toDigits,
      toDigitsCore_eq_digits (n + 1) n [] (Nat.pos_of_ne_zero h) (Nat.lt_succ_self n)]
    simp

theorem digitChar_inj_lt : ∀ d1 : Nat, d1 < 10 → ∀ d2 : Nat, d2 < 10 →
    Nat.digitChar d1 = Nat.digitChar d2 → d1 = d2 := by decide

theorem digitChar_ne_underscore : ∀ d : Nat, d < 10 → Nat.digitChar d ≠ '_' := by decide

theorem map_digitChar_inj : ∀ l1 l2 : List Nat, (∀ d ∈ l1, d < 10) → (∀ d ∈ l2, d < 10) →
    l1.map Nat.digitChar = l2.map Nat.digitChar → l1 = l2 := by
  intro l1
  induction l1 with
  | nil =>
    intro l2 _ _ h
    cases l2 with
    | nil => rfl
    | cons b t => simp at h
  | cons a t ih =>
    intro l2 h1 h2 h
    cases l2 with
    | nil => simp at h
    | cons b t2 =>
      simp only [List.map_cons, List.cons.injEq] at h
      have ha : a = b := digitChar_inj_lt a (h1 a (by simp)) b (h2 b (by simp)) h.1
      have ht : t = t2 := ih t2 (fun d hd => h1 d (by simp [hd]))
        (fun d hd => h2 d (by simp [hd])) h.2
      rw [ha, ht]

/-- Decimal renderings of distinct numbers differ. -/
theorem repr_data_inj {m n : Nat} (h : (Nat.repr m).data = (Nat.repr n).data) : m = n := by
  rw [repr_data_eq, repr_data_eq] at h
  have h2 : (decDigits m).map Nat.digitChar = (decDigits n).map Nat.digitChar :=
    List.reverse_injective h
  have h3 : decDigits m = decDigits n :=
    map_digitChar_inj _ _ (decDigits_lt m) (decDigits_lt n) h2
  have h4 := congrArg (Nat.ofDigits 10) h3
  rwa [ofDigits_decDigits, ofDigits_decDigits] at h4

/-- A decimal rendering never contains the underscore separator. -/
theorem underscore_not_in_repr (n : Nat) : '_' ∉ (Nat.repr n).data := by
  rw [repr_data_eq]
  intro h
  rw [List.mem_reverse, List.mem_map] at h
  obtain ⟨d, hd, hEq⟩ := h
  exact digitChar_ne_underscore d (decDigits_lt n d hd) hEq

/-- A separator character occurring in neither left part splits a
concatenation uniquely. -/
theorem sep_append_inj {c : Char} : ∀ (l1 l1' l2 l2' : List Char), c ∉ l1 → c ∉ l1' →
    l1 ++ c :: l2 = l1' ++ c :: l2' → l1 = l1' ∧ l2 = l2' := by
  intro l1
  induction l1 with
  | nil =>
    intro l1' l2 l2' _ h1' h
    cases l1' with
    | nil =>
      simp only [List.nil_append, List.cons.injEq] at h
      exact ⟨rfl, h.2⟩
    | cons a t =>
      simp only [List.nil_append, List.cons_append, List.cons.injEq] at h
      exact absurd (by simp [← h.1]) h1'
  | cons a t ih =>
    intro l1' l2 l2' h1 h1' h
    cases l1' with
    | nil =>
      simp only [List.cons_append, List.nil_append, List.cons.injEq] at h
      exact absurd (by simp [h.1]) h1
    | cons b t2 =>
      simp only [List.cons_append, List.cons.injEq] at h
      have := ih t2 l2 l2' (fun hc => h1 (by simp [hc])) (fun hc => h1' (by simp [hc])) h.2
      exact ⟨by rw [h.1, this.1], this.2⟩

/-- Looking up a path just erased finds nothing. -/
theorem lookupFile_eraseFile (fs : List (String × FileData)) (path : String) :
    lookupFile (eraseFile fs path) path = none := by
  induction fs with
  | nil => rfl
  | cons e rest ih =>
    by_cases he : e.1 = path
    · simp [eraseFile, he, ih]
    · simp [eraseFile, he, lookupFile, ih]

/-- Full characterization of the listing loop: the snapshot and the scheduled
garbage-collection ids, file by file. -/
theorem listLoop_characterization (alive : Nat → Bool) (entries : List (String × FileData)) :
    (listContainersLoop alive entries).1 =
      entries.filterMap (fun e =>
        if hasSuffix e.1 containerFileExt then
          match e.2 with
          | FileData.valid info =>
            some { info with
                   status := if isProcessRunning alive info.pid then "running" else "exited" }
          | FileData.malformed => none
          | FileData.unreadable => none
        else none)
    ∧ (listContainersLoop alive entries).2 =
      entries.filterMap (fun e =>
        if hasSuffix e.1 containerFileExt then
          match e.2 with
          | FileData.valid info =>
            if isProcessRunning alive info.pid then none else some info.id
          | FileData.malformed => none
          | FileData.unreadable => none
        else none) := by
  induction entries with
  | nil => exact ⟨rfl, rfl⟩
  | cons e rest ih =>
    obtain ⟨ih1, ih2⟩ := ih
    cases hs : hasSuffix e.1 containerFileExt
    · simp [listContainersLoop, List.filterMap_cons, hs, ih1, ih2]
    · cases hd : e.2 with
      | valid info =>
        cases ha : isProcessRunning alive info.pid
        · simp [listContainersLoop, List.filterMap_cons, hs, hd, ha, ih1, ih2]
        · simp [listContainersLoop, List.filterMap_cons, hs, hd, ha, ih1, ih2]
      | malformed => simp [listContainersLoop, List.filterMap_cons, hs, hd, ih1, ih2]
      | unreadable => simp [listContainersLoop, List.filterMap_cons, hs, hd, ih1, ih2]

/-- Dropping the unreadable and malformed files does not change the result of
the listing loop. -/
theorem listLoop_skips_corrupt (alive : Nat → Bool) (entries : List (String × FileData)) :
    listContainersLoop alive entries =
      listContainersLoop alive (entries.filter (fun e => !(FileData.isCorrupt e.2))) := by
  induction entries with
  | nil => rfl
  | cons e rest ih =>
    cases hd : e.2 with
    | valid info =>
      simp [List.filter_cons, hd, FileData.isCorrupt, listContainersLoop, ih]
    | malformed =>
      cases hs : hasSuffix e.1 containerFileExt <;>
        simp [List.filter_cons, hd, FileData.isCorrupt, listContainersLoop, hs, ih]
    | unreadable =>
      cases hs : hasSuffix e.1 containerFileExt <;>
        simp [List.filter_cons, hd, FileData.isCorrupt, listContainersLoop, hs, ih]

/-- Once the current state directory is the user fallback, `ensureStateDir`
leaves it there, whatever the directory-creation outcomes are. -/
theorem ensureStateDir_fallback_fixed (env : SysEnv) :
    (ensureStateDir env (userStateDir env)).1 = userStateDir env := by
  unfold ensureStateDir
  cases h : env.mkdir (userStateDir env) <;> simp [h]

/-- The state directory after one registry call, given any starting value. -/
theorem applyOp_dir (env : SysEnv) (st : RegState) (op : RegOp) :
    (applyOp env st op).dir = opUsedDir env st op := by
  cases op with
  | registerOp u s p c a =>
    rcases h : ensureStateDir env st.dir with ⟨d, b⟩
    cases b <;> simp [applyOp, opUsedDir, RegisterContainer, h]
  | listOp alive =>
    rcases h : ensureStateDir env st.dir with ⟨d, b⟩
    cases b with
    | false => simp [applyOp, opUsedDir, ListContainers, h]
    | true =>
      cases hr : env.readDir d <;> simp [applyOp, opUsedDir, ListContainers, h, hr]
  | unregisterOp id =>
    cases hl : lookupFile st.files (getContainerFilePath st.dir id) <;>
      simp [applyOp, opUsedDir, UnregisterContainer, hl]

/-- The fallback directory is an absorbing state of the per-call transition. -/
theorem applyOp_dir_fallback (env : SysEnv) (st : RegState) (op : RegOp)
    (hst : st.dir = userStateDir env) : (applyOp env st op).dir = userStateDir env := by
  rw [applyOp_dir]
  cases op <;> simp [opUsedDir, hst, ensureStateDir_fallback_fixed]

/-! ## Claim theorems -/

/-- C1 (counterexample): a concrete successful launch through the run command
handler performs no `RegisterContainer` call at all, so no `ContainerRecord`
is created for the launched child — contradicting the claim that the
Launcher registers the child right after a successful launch. -/
theorem c1_counterexample_successful_launch_never_registers :
    (handleRunCommand launchOkWorld ["/usr/local/bin/nsctl", "run", "/bin/echo", "hi"]).2 = true
    ∧ ((handleRunCommand launchOkWorld ["/usr/local/bin/nsctl", "run", "/bin/echo", "hi"]).1.all
        (fun a => !(LaunchAction.isRegisterCall a))) = true
    ∧ (handleRunCommand launchOkWorld ["/usr/local/bin/nsctl", "run", "/bin/echo", "hi"]).1 =
        [LaunchAction.startChild "/usr/local/bin/nsctl" ["setup-and-exec", "/bin/echo", "hi"],
         LaunchAction.waitChild] := by
  decide

/-- C1 (amended): the Launcher never calls the State Registry's Register —
neither `RunWithSetup` nor the run command handler ever performs a
`RegisterContainer` action, for any outcome of the launch, so no
`ContainerRecord` is ever created for a launched child. -/
theorem c1_amended_launch_never_registers (w : LaunchWorld) (execPath targetCmd : String)
    (targetArgs argv : List String) :
    ((RunWithSetup w execPath targetCmd targetArgs).1.all
        (fun a => !(LaunchAction.isRegisterCall a))) = true
    ∧ ((handleRunCommand w argv).1.all (fun a => !(LaunchAction.isRegisterCall a))) = true := by
  constructor
  · cases h : w.startOk <;> simp [RunWithSetup, h, LaunchAction.isRegisterCall]
  · match argv with
    | a :: b :: c :: rest =>
      cases h : w.startOk <;>
        simp [handleRunCommand, RunWithSetup, h, LaunchAction.isRegisterCall]
    | [] => rfl
    | [a] => rfl
    | [a, b] => rfl

/-- Witness for the amended C1 at a concrete launch. -/
theorem c1_amended_witness :
    ((RunWithSetup launchOkWorld "/bin/nsctl" "/bin/sh" []).1.all
        (fun a => !(LaunchAction.isRegisterCall a))) = true :=
  (c1_amended_launch_never_registers launchOkWorld "/bin/nsctl" "/bin/sh" [] []).1

/-- C2: whenever the state directory resolves successfully, `RegisterContainer`
returns the id `nsctl_<timestamp>_<pid>`, and writes, at the per-record path
`<stateDir>/<id>.json` under the current state directory, a record with
`status = "running"` and exactly the given pid, command and args. -/
theorem c2_register_builds_and_writes_record (env : SysEnv) (unixNow startNow pid : Nat)
    (command : String) (args : List String) (st : RegState) (d : String)
    (hensure : ensureStateDir env st.dir = (d, true)) :
    (RegisterContainer env unixNow startNow pid command args st).1 =
      Except.ok ("nsctl_" ++ Nat.repr unixNow ++ "_" ++ Nat.repr pid)
    ∧ lookupFile (RegisterContainer env unixNow startNow pid command args st).2.files
        (d ++ "/" ++ ("nsctl_" ++ Nat.repr unixNow ++ "_" ++ Nat.repr pid) ++ containerFileExt) =
      some (FileData.valid
        { id := "nsctl_" ++ Nat.repr unixNow ++ "_" ++ Nat.repr pid, pid := pid,
          command := command, args := args, startTime := startNow, status := "running" })
    ∧ (RegisterContainer env unixNow startNow pid command args st).2.dir = d := by
  refine ⟨?_, ?_, ?_⟩ <;>
    simp [RegisterContainer, hensure, generateContainerID, getContainerFilePath,
      writeFile, lookupFile]

/-- Witness for C2: the spec's own example, `Register(1234, "/bin/echo", ["hi"])`. -/
theorem c2_witness :
    (RegisterContainer envOkEx 100 101 1234 "/bin/echo" ["hi"]
        { dir := defaultStateDir, files := [] }).1 = Except.ok "nsctl_100_1234" := by
  have h := c2_register_builds_and_writes_record envOkEx 100 101 1234 "/bin/echo" ["hi"]
    { dir := defaultStateDir, files := [] } defaultStateDir rfl
  rw [h.1]
  exact congrArg Except.ok (by decide)

/-- C3: the listing loop returns one record per parseable record file, with
status recomputed from the liveness probe (`running` if alive, `exited` if
dead); the dead records' ids are exactly the ones scheduled for the
asynchronous removal, and each of them still appears, unremoved, in the
returned snapshot with `status = "exited"`. -/
theorem c3_list_recomputes_status_and_schedules_gc (alive : Nat → Bool)
    (entries : List (String × FileData)) :
    (listContainersLoop alive entries).1 =
      entries.filterMap (fun e =>
        if hasSuffix e.1 containerFileExt then
          match e.2 with
          | FileData.valid info =>
            some { info with
                   status := if isProcessRunning alive info.pid then "running" else "exited" }
          | FileData.malformed => none
          | FileData.unreadable => none
        else none)
    ∧ (listContainersLoop alive entries).2 =
      entries.filterMap (fun e =>
        if hasSuffix e.1 containerFileExt then
          match e.2 with
          | FileData.valid info =>
            if isProcessRunning alive info.pid then none else some info.id
          | FileData.malformed => none
          | FileData.unreadable => none
        else none)
    ∧ (∀ i ∈ (listContainersLoop alive entries).2,
        ∃ info ∈ (listContainersLoop alive entries).1, info.id = i ∧ info.status = "exited") := by
  obtain ⟨h1, h2⟩ := listLoop_characterization alive entries
  refine ⟨h1, h2, ?_⟩
  intro i hi
  rw [h2, List.mem_filterMap] at hi
  obtain ⟨e, he, hfe⟩ := hi
  rw [h1]
  revert hfe
  cases hs : hasSuffix e.1 containerFileExt
  · simp [hs]
  · cases hd : e.2 with
    | valid info =>
      cases ha : isProcessRunning alive info.pid
      · simp only [hs, hd, ha]
        intro hid
        refine ⟨{ info with status := "exited" }, ?_, ?_, rfl⟩
        · rw [List.mem_filterMap]
          exact ⟨e, he, by simp [hs, hd, ha]⟩
        · simpa using hid
      · simp [hs, hd, ha]
    | malformed => simp [hs, hd]
    | unreadable => simp [hs, hd]

/-- Witness for C3 on a concrete directory with one live and one dead record. -/
theorem c3_witness :
    (listContainersLoop (fun p => p == 42) entriesEx).1 =
      [{ infoEx with status := "running" }] := by
  have h := c3_list_recomputes_status_and_schedules_gc (fun p => p == 42) entriesEx
  rw [h.1]
  decide

/-- C4: the setup handler performs, in this fixed order, sethostname with the
fixed value `"container"`, the proc mount, search-path resolution of the
target, and the process-image replacement with the original command name as
argv 0; each step happens only if all earlier steps succeeded, an unresolved
command yields the command-not-found outcome, and on any failure the target
is never executed. -/
theorem c4_setup_fixed_order_and_fatality (w : SetupWorld) (targetCmd : String)
    (targetArgs : List String) :
    (∀ h, SetupStep.sethostname h ∈ (HandleSetupAndExec w targetCmd targetArgs).1 →
        h = "container")
    ∧ (SetupStep.sethostname "container" ∈ (HandleSetupAndExec w targetCmd targetArgs).1 ↔
        w.sethostnameOk = true)
    ∧ (∀ s t f, SetupStep.mount s t f ∈ (HandleSetupAndExec w targetCmd targetArgs).1 →
        t = "/proc" ∧ f = "proc")
    ∧ (SetupStep.mount "proc" "/proc" "proc" ∈ (HandleSetupAndExec w targetCmd targetArgs).1 ↔
        (w.sethostnameOk = true ∧ w.mountOk = true))
    ∧ (∀ p a, SetupStep.execTarget p a ∈ (HandleSetupAndExec w targetCmd targetArgs).1 ↔
        (w.sethostnameOk = true ∧ w.mountOk = true ∧ w.lookPath targetCmd = some p ∧
         a = targetCmd :: targetArgs))
    ∧ (w.sethostnameOk = true → w.mountOk = true → w.lookPath targetCmd = none →
        (HandleSetupAndExec w targetCmd targetArgs).2 = SetupOutcome.commandNotFound targetCmd)
    ∧ (∀ p, w.sethostnameOk = true → w.mountOk = true → w.lookPath targetCmd = some p →
        HandleSetupAndExec w targetCmd targetArgs =
          ([SetupStep.sethostname "container", SetupStep.mount "proc" "/proc" "proc",
            SetupStep.execTarget p (targetCmd :: targetArgs)],
           SetupOutcome.execTarget p (targetCmd :: targetArgs)))
    ∧ (∀ p a, (HandleSetupAndExec w targetCmd targetArgs).2 = SetupOutcome.execTarget p a ↔
        (w.sethostnameOk = true ∧ w.mountOk = true ∧ w.lookPath targetCmd = some p ∧
         a = targetCmd :: targetArgs)) := by
  cases hsh : w.sethostnameOk <;> cases hmo : w.mountOk <;>
    cases hlp : w.lookPath targetCmd <;>
      simp [HandleSetupAndExec, hsh, hmo, hlp] <;>
        aesop

/-- Witness for C4: in a fully successful world the handler execs the resolved
target with the command name as argv 0. -/
theorem c4_witness :
    HandleSetupAndExec setupWorldEx "sh" ["-c", "id"] =
      ([SetupStep.sethostname "container", SetupStep.mount "proc" "/proc" "proc",
        SetupStep.execTarget "/bin/sh" ["sh", "-c", "id"]],
       SetupOutcome.execTarget "/bin/sh" ["sh", "-c", "id"]) := by
  have h := (c4_setup_fixed_order_and_fatality setupWorldEx "sh" ["-c", "id"]).2.2.2.2.2.2.1
  exact h "/bin/sh" rfl rfl (by decide)

/-- C5: the launcher starts the child on the same binary with the sentinel
`"setup-and-exec"` as first argument followed by the target command and its
arguments; the entry point routes to the setup handler exactly when the
sentinel check fires, the check fires exactly on argument vectors of the form
`prog :: "setup-and-exec" :: cmd :: rest`, and the sentinel collides with
neither `"run"` nor `"ps"`. -/
theorem c5_sentinel_reentry_protocol (w : LaunchWorld) (execPath targetCmd : String)
    (targetArgs : List String) :
    (RunWithSetup w execPath targetCmd targetArgs).1.head? =
      some (LaunchAction.startChild execPath ("setup-and-exec" :: targetCmd :: targetArgs))
    ∧ mainDispatch (execPath :: "setup-and-exec" :: targetCmd :: targetArgs) =
        MainRoute.setupHandler targetCmd targetArgs
    ∧ (∀ argv : List String,
        routesToSetupHandler (mainDispatch argv) = true ↔ isNamespaceSetupCall argv = true)
    ∧ (∀ argv : List String,
        isNamespaceSetupCall argv = true ↔
          ∃ p c rest, argv = p :: "setup-and-exec" :: c :: rest)
    ∧ ("setup-and-exec" : String) ≠ "run" ∧ ("setup-and-exec" : String) ≠ "ps" := by
  refine ⟨?_, ?_, ?_, ?_, by decide, by decide⟩
  · cases h : w.startOk <;> simp [RunWithSetup, h]
  · simp [mainDispatch, isNamespaceSetupCall]
  · intro argv
    by_cases h : isNamespaceSetupCall argv = true
    · simp [mainDispatch, h, routesToSetupHandler]
    · simp only [mainDispatch, h, Bool.false_eq_true, if_false, iff_false_intro h]
      simp only [eq_iff_iff, iff_false]
      intro hcontra
      revert hcontra
      split
      · simp [routesToSetupHandler]
      · split <;> simp [routesToSetupHandler]
  · intro argv
    constructor
    · intro h
      match argv with
      | [] => simp [isNamespaceSetupCall] at h
      | [a] => simp [isNamespaceSetupCall] at h
      | [a, b] => simp [isNamespaceSetupCall] at h
      | a :: b :: c :: rest =>
        simp [isNamespaceSetupCall] at h
        exact ⟨a, c, rest, by rw [h]⟩
    · rintro ⟨p, c, rest, rfl⟩
      simp [isNamespaceSetupCall]

/-- Witness for C5: a concrete re-entry argument vector is routed to the setup
handler. -/
theorem c5_witness :
    mainDispatch ["/bin/nsctl", "setup-and-exec", "/bin/echo", "hi"] =
      MainRoute.setupHandler "/bin/echo" ["hi"] :=
  (c5_sentinel_reentry_protocol launchOkWorld "/bin/nsctl" "/bin/echo" ["hi"]).2.1

/-- C6: the registry starts at the fixed system runtime directory; a permission
failure there switches it, once, to the user fallback; and from then on every
Register, List and Unregister call in the process both leaves the current
directory at the fallback and operates under the fallback — the switch is
never reversed. -/
theorem c6_state_dir_set_once_then_fixed (env : SysEnv) :
    currentStateDirInit = defaultStateDir
    ∧ (env.mkdir defaultStateDir = MkdirOutcome.ok →
        ensureStateDir env defaultStateDir = (defaultStateDir, true))
    ∧ (env.mkdir defaultStateDir = MkdirOutcome.permDenied →
        env.mkdir (userStateDir env) = MkdirOutcome.ok →
        ensureStateDir env defaultStateDir = (userStateDir env, true))
    ∧ (∀ (st : RegState) (ops : List RegOp), st.dir = userStateDir env →
        (applyOps env st ops).dir = userStateDir env)
    ∧ (∀ (st : RegState) (op : RegOp), st.dir = userStateDir env →
        opUsedDir env st op = userStateDir env) := by
  refine ⟨rfl, ?_, ?_, ?_, ?_⟩
  · intro h
    simp [ensureStateDir, h]
  · intro h1 h2
    simp [ensureStateDir, h1, h2]
  · intro st ops
    induction ops generalizing st with
    | nil => intro h; exact h
    | cons op rest ih =>
      intro h
      exact ih _ (applyOp_dir_fallback env st op h)
  · intro st op h
    rw [← applyOp_dir]
    exact applyOp_dir_fallback env st op h

/-- Witness for C6: under `envPermEx` the primary directory is denied and the
registry switches to the user fallback; a subsequent register call stays in
the fallback. -/
theorem c6_witness :
    ensureStateDir envPermEx defaultStateDir = (userStateDir envPermEx, true)
    ∧ (applyOps envPermEx { dir := userStateDir envPermEx, files := [] }
        [RegOp.registerOp 100 101 7 "/bin/true" [],
         RegOp.unregisterOp "nsctl_100_7", RegOp.listOp (fun _ => true)]).dir =
      userStateDir envPermEx := by
  constructor
  · exact (c6_state_dir_set_once_then_fixed envPermEx).2.2.1 (by decide) (by decide)
  · exact (c6_state_dir_set_once_then_fixed envPermEx).2.2.2.1 _ _ rfl

/-- C7: unregistering an id with no backing file succeeds and leaves the state
unchanged (hence succeeds again on every repetition), and unregistering an id
whose file exists succeeds and deletes the file. -/
theorem c7_unregister_idempotent (st : RegState) (containerID : String) :
    (lookupFile st.files (getContainerFilePath st.dir containerID) = none →
      UnregisterContainer st containerID = (Except.ok (), st)
      ∧ (UnregisterContainer (UnregisterContainer st containerID).2 containerID).1 =
          Except.ok ())
    ∧ (∀ fd, lookupFile st.files (getContainerFilePath st.dir containerID) = some fd →
      (UnregisterContainer st containerID).1 = Except.ok ()
      ∧ lookupFile (UnregisterContainer st containerID).2.files
          (getContainerFilePath st.dir containerID) = none) := by
  constructor
  · intro h
    have h1 : UnregisterContainer st containerID = (Except.ok (), st) := by
      simp [UnregisterContainer, h]
    exact ⟨h1, by rw [h1]; simp [UnregisterContainer, h]⟩
  · intro fd h
    refine ⟨by simp [UnregisterContainer, h], ?_⟩
    simp only [UnregisterContainer, h]
    exact lookupFile_eraseFile st.files (getContainerFilePath st.dir containerID)

/-- Witness for C7: double unregister of an absent id succeeds, and unregister
of a present id deletes its file. -/
theorem c7_witness :
    UnregisterContainer { dir := defaultStateDir, files := [] } "nsctl_100_7" =
      (Except.ok (), { dir := defaultStateDir, files := [] })
    ∧ lookupFile (UnregisterContainer
        { dir := defaultStateDir,
          files := [("/var/run/nsctl/nsctl_100_42.json", FileData.valid infoEx)] }
        "nsctl_100_42").2.files "/var/run/nsctl/nsctl_100_42.json" = none := by
  constructor
  · exact ((c7_unregister_idempotent { dir := defaultStateDir, files := [] }
      "nsctl_100_7").1 (by decide)).1
  · have h := ((c7_unregister_idempotent
      { dir := defaultStateDir,
        files := [("/var/run/nsctl/nsctl_100_42.json", FileData.valid infoEx)] }
      "nsctl_100_42").2 (FileData.valid infoEx) (by decide)).2
    have hp : getContainerFilePath defaultStateDir "nsctl_100_42" =
        "/var/run/nsctl/nsctl_100_42.json" := by decide
    rw [hp] at h
    exact h

/-- C8: when the directory resolves and its listing succeeds, `ListContainers`
returns `ok` whatever per-file read or parse failures the entries contain,
and the corrupt files are simply skipped: the result equals the result over
the valid files alone. -/
theorem c8_per_file_failures_are_skipped (env : SysEnv) (alive : Nat → Bool)
    (st : RegState) (d : String) (entries : List (String × FileData))
    (hensure : ensureStateDir env st.dir = (d, true))
    (hread : env.readDir d = Except.ok entries) :
    (ListContainers env alive st).1 = Except.ok (listContainersLoop alive entries)
    ∧ listContainersLoop alive entries =
        listContainersLoop alive (entries.filter (fun e => !(FileData.isCorrupt e.2))) := by
  constructor
  · simp [ListContainers, hensure, hread]
  · exact listLoop_skips_corrupt alive entries

/-- Witness for C8: with one valid, one malformed and one unreadable file, the
listing still succeeds and returns the valid record. -/
theorem c8_witness :
    (ListContainers envListEx (fun _ => true) { dir := defaultStateDir, files := [] }).1 =
      Except.ok ([{ infoEx with status := "running" }], []) := by
  have h := c8_per_file_failures_are_skipped envListEx (fun _ => true)
    { dir := defaultStateDir, files := [] } defaultStateDir entriesEx rfl rfl
  rw [h.1]
  exact congrArg Except.ok (by decide)

/-- C10: invoking the program as `prog setup-and-exec` with no target command
is not routed to the setup handler: it falls through to normal dispatch as an
unknown user command, which prints the usage text and exits with status 1. -/
theorem c10_sentinel_without_target_is_unknown_command (prog : String) :
    mainDispatch [prog, "setup-and-exec"] = MainRoute.unknownCommand "setup-and-exec"
    ∧ routeExitCode (mainDispatch [prog, "setup-and-exec"]) = some 1
    ∧ routePrintsUsage (mainDispatch [prog, "setup-and-exec"]) = true
    ∧ routesToSetupHandler (mainDispatch [prog, "setup-and-exec"]) = false :=
  ⟨rfl, rfl, rfl, rfl⟩

/-- Witness for C10 at a concrete program name. -/
theorem c10_witness :
    mainDispatch ["/bin/nsctl", "setup-and-exec"] =
      MainRoute.unknownCommand "setup-and-exec" :=
  (c10_sentinel_without_target_is_unknown_command "/bin/nsctl").1

/-- C9: `generateContainerID` applied to distinct pids produces distinct ids,
whatever the two observed timestamps are — in particular also when two
concurrent Register calls read the same timestamp. -/
theorem c9_distinct_pids_give_distinct_ids (t1 t2 p1 p2 : Nat) (h : p1 ≠ p2) :
    generateContainerID t1 p1 ≠ generateContainerID t2 p2 := by
  intro heq
  have hd := congrArg String.data heq
  simp only [generateContainerID, String.data_append] at hd
  simp only [List.append_assoc, List.singleton_append] at hd
  have hd2 := List.append_cancel_left hd
  have := sep_append_inj (Nat.repr t1).data (Nat.repr t2).data
    (Nat.repr p1).data (Nat.repr p2).data
    (underscore_not_in_repr t1) (underscore_not_in_repr t2) hd2
  exact h (repr_data_inj this.2)

/-- Witness for C9: two concrete registrations at the same timestamp. -/
theorem c9_witness :
    (1234 : Nat) ≠ 1235 ∧ generateContainerID 100 1234 ≠ generateContainerID 100 1235 :=
  ⟨by decide, c9_distinct_pids_give_distinct_ids 100 100 1234 1235 (by decide)⟩

end Nsctl
